import Mathlib

/-!
Shallow embedding of the session-management backend of Claude_Code-Mobile
(`src/backend/app`), covering:

* `app/utils/session_storage.py` — `PersistentSessionStorage`
  (durable metadata store over a JSON file);
* `app/services/session_manager.py` — `SessionManager`
  (in-memory pool of live clients, idle sweep, get-or-create);
* `app/services/claude_service.py` — `ClaudeService.get_session` /
  `ClaudeService.delete_session` (owner access control);
* `app/utils/session_utils.py` — `recover_session`,
  `cleanup_orphaned_sessions`.

Modelling conventions:

* Wall-clock instants (`time.time()` / `datetime.utcnow()`) are `Int`
  parameters passed explicitly to each operation that reads the clock.
* A Python `dict` (which preserves insertion order, updates a present key
  in place and appends an absent key) is an association list with
  pairwise-distinct keys; `setMeta`/`setSession` mirror `d[k] = v`,
  `eraseMeta`/`delSession` mirror `del d[k]`, `findMeta`/`findSession`
  mirror `d.get(k)`.
* Timestamp strings produced by `datetime.isoformat()` and consumed by
  `datetime.fromisoformat()` are the inductive `TimeStr`: `.iso t` is a
  naive isoformat string denoting instant `t`, `.isoZ t` an offset-aware
  one (`...+00:00`, or `...Z` before the `replace("Z", "+00:00")` the
  source applies), `.garbage s` any other string.  `fromisoformat` parses
  the first two and fails on the third; comparing an aware instant with
  the naive cutoff built from `datetime.utcnow()` raises `TypeError` in
  Python, which the embedding records via `TimeStr.isAware`.
* Fallible effects are injected as explicit flags: `readRaises` means the
  underlying `open`/`json.load` raises something other than the
  internally-caught `JSONDecodeError`/`FileNotFoundError` (e.g. an
  `OSError`), `writeRaises` means `_write_storage` fails and re-raises.
  A Python function body that can raise is an `Except String` value; the
  enclosing `try/except` wrapper of each public operation maps `.error`
  to that operation's neutral return value.
-/

/-- Timestamp strings as stored in the JSON file (see conventions above). -/
inductive TimeStr where
  | iso (t : Int)
  | isoZ (t : Int)
  | garbage (s : String)
deriving DecidableEq, Repr

/-- `datetime.fromisoformat` on the modelled string (after the source's
`replace("Z", "+00:00")`): succeeds on both naive and aware isoformat
strings, raises `ValueError` (here: `none`) on anything else. -/
def TimeStr.fromisoformat : TimeStr → Option Int
  | .iso t => some t
  | .isoZ t => some t
  | .garbage _ => none

/-- Whether the parsed `datetime` is offset-aware: comparing it with the
offset-naive cutoff `datetime.utcnow() - timedelta(...)` raises
`TypeError`. -/
def TimeStr.isAware : TimeStr → Bool
  | .isoZ _ => true
  | _ => false

/-- Python truthiness of the stored string (`if created_at_str:`):
an isoformat string is never empty, so only the empty garbage string is
falsy. -/
def TimeStr.isTruthy : TimeStr → Bool
  | .iso _ => true
  | .isoZ _ => true
  | .garbage s => s ≠ ""

/-- One record of the durable store, mirroring the `session_metadata`
dict written by `PersistentSessionStorage.store_session`
(`session_storage.py:132-139`).  `created_at`/`updated_at` are `Option`s
because a record that predates this writer may lack either key
(`dict.get` then yields `None`). -/
structure SessionMetadata where
  session_id : String
  user_id : String
  working_directory : String
  session_name : String
  created_at : Option TimeStr
  updated_at : Option TimeStr
deriving DecidableEq, Repr

/-- The durable JSON file: missing, holding a well-formed object of
records, or holding bytes that `json.load` rejects (such as the literal
`"not valid data"`). -/
inductive FileState where
  | absent
  | valid (data : List (String × SessionMetadata))
  | invalid (raw : String)
deriving DecidableEq, Repr

/-- `data.get(session_id)` on the decoded dict. -/
def findMeta : List (String × SessionMetadata) → String → Option SessionMetadata
  | [], _ => none
  | (k, md) :: rest, sid => if k = sid then some md else findMeta rest sid

/-- `data[session_id] = metadata`: update in place when present, append
when absent (Python dict semantics). -/
def setMeta : List (String × SessionMetadata) → String → SessionMetadata →
    List (String × SessionMetadata)
  | [], sid, md => [(sid, md)]
  | (k, old) :: rest, sid, md =>
      if k = sid then (k, md) :: rest else (k, old) :: setMeta rest sid md

/-- `del data[session_id]` (the dict holds at most one binding per key;
the recursion drops every binding of `sid`). -/
def eraseMeta : List (String × SessionMetadata) → String →
    List (String × SessionMetadata)
  | [], _ => []
  | (k, md) :: rest, sid =>
      if k = sid then eraseMeta rest sid else (k, md) :: eraseMeta rest sid

/-- `PersistentSessionStorage._read_storage` (`session_storage.py:73-85`):
`json.load` of the file; `JSONDecodeError` and `FileNotFoundError` are
caught and give the empty dict; any other exception (modelled by
`readRaises`) propagates to the caller. -/
def readStorage (fs : FileState) (readRaises : Bool) :
    Except String (List (String × SessionMetadata)) :=
  if readRaises then .error "OSError"
  else
    match fs with
    | .absent => .ok []
    | .valid data => .ok data
    | .invalid _ => .ok []

/-- `PersistentSessionStorage._write_storage` (`session_storage.py:87-105`):
dump to a temp file then atomically rename over the durable file; on any
failure the exception is logged and re-raised, and the durable file is
left as it was. -/
def writeStorage (fs : FileState) (writeRaises : Bool)
    (data : List (String × SessionMetadata)) : Except String FileState :=
  if writeRaises then .error "write failed"
  else
    let _ := fs
    .ok (.valid data)

/-- `PersistentSessionStorage._ensure_storage_file`
(`session_storage.py:43-71`): create an empty store when the file is
missing, otherwise validate it with `_read_storage` (whose internal
catches make an unparseable file read as the empty dict *without* raising,
leaving the corrupt bytes in place); only when that body raises is the
file overwritten with an empty store. -/
def ensureStorageFile (fs : FileState) (readRaises writeRaises : Bool) :
    Except String FileState :=
  let body : Except String FileState :=
    match fs with
    | .absent => writeStorage fs writeRaises []
    | _ =>
        match readStorage fs readRaises with
        | .ok _ => .ok fs
        | .error e => .error e
  match body with
  | .ok fs' => .ok fs'
  | .error _ => writeStorage fs writeRaises []

/-- The metadata dict built by `store_session` (`session_storage.py:132-139`)
at clock instant `now`.  `session_name or f"Session {session_id[:8]}"`
falls back to the default on `None` *and* on the empty string (Python
truthiness); `(created_at or datetime.utcnow()).isoformat()` stores the
given naive instant, defaulting to `now`. -/
def buildMetadata (sid uid wd : String) (name : Option String)
    (createdAt : Option Int) (now : Int) : SessionMetadata :=
  { session_id := sid
    user_id := uid
    working_directory := wd
    session_name :=
      match name with
      | some n => if n = "" then "Session " ++ sid.take 8 else n
      | none => "Session " ++ sid.take 8
    created_at := some (.iso (createdAt.getD now))
    updated_at := some (.iso now) }

/-- `PersistentSessionStorage.store_session` (`session_storage.py:107-164`):
read-modify-write under the lock; `True` on success, and on any internal
exception the outer `except` returns `False` (the durable file keeps its
prior contents, since `_write_storage` replaces it atomically or not at
all). -/
def store_session (fs : FileState) (readRaises writeRaises : Bool)
    (sid uid wd : String) (name : Option String) (createdAt : Option Int)
    (now : Int) : Bool × FileState :=
  let body : Except String FileState := do
    let data ← readStorage fs readRaises
    let md := buildMetadata sid uid wd name createdAt now
    writeStorage fs writeRaises (setMeta data sid md)
  match body with
  | .ok fs' => (true, fs')
  | .error _ => (false, fs)

/-- `PersistentSessionStorage.get_session` (`session_storage.py:166-206`):
`data.get(session_id)`, with the outer `except` turning any internal
exception into `None`. -/
def get_session (fs : FileState) (readRaises : Bool) (sid : String) :
    Option SessionMetadata :=
  match readStorage fs readRaises with
  | .ok data => findMeta data sid
  | .error _ => none

/-- `PersistentSessionStorage.remove_session` (`session_storage.py:259-294`):
deletes the record and rewrites the file when the key is present, returns
`True` also when it was absent; any internal exception yields `False`
with the file unchanged. -/
def remove_session (fs : FileState) (readRaises writeRaises : Bool)
    (sid : String) : Bool × FileState :=
  let body : Except String (Bool × FileState) := do
    let data ← readStorage fs readRaises
    match findMeta data sid with
    | some _ => do
        let fs' ← writeStorage fs writeRaises (eraseMeta data sid)
        pure (true, fs')
    | none => pure (true, fs)
  match body with
  | .ok r => r
  | .error _ => (false, fs)

/-- Sort key of `list_user_sessions` (`session_storage.py:233`):
`s.get("created_at", "")`, compared as strings.  The rank triple orders a
missing key (the empty string) first and isoformat strings by the instant
they denote — lexicographic comparison of equal-format isoformat strings
agrees with instant order; cross-constructor comparisons approximate
Python's plain string order and no property proved below depends on them. -/
def createdKeyRank (ts : Option TimeStr) : Nat × Int × String :=
  match ts with
  | none => (0, 0, "")
  | some (.garbage s) => (1, 0, s)
  | some (.iso t) => (2, t, "")
  | some (.isoZ t) => (2, t, "")

/-- `a` sorts no later than `b` in the newest-first order of
`user_sessions.sort(key=..., reverse=True)`. -/
def createdDescLe (a b : SessionMetadata) : Bool :=
  let ra := createdKeyRank a.created_at
  let rb := createdKeyRank b.created_at
  decide (rb.1 < ra.1 ∨ (rb.1 = ra.1 ∧
    (rb.2.1 < ra.2.1 ∨ (rb.2.1 = ra.2.1 ∧ rb.2.2 ≤ ra.2.2))))

/-- Insertion step of a stable sort by `le`. -/
def insertByLe (le : SessionMetadata → SessionMetadata → Bool)
    (x : SessionMetadata) : List SessionMetadata → List SessionMetadata
  | [] => [x]
  | y :: ys => if le x y then x :: y :: ys else y :: insertByLe le x ys

/-- Stable sort by `le`, modelling `list.sort(...)`. -/
def sortByLe (le : SessionMetadata → SessionMetadata → Bool) :
    List SessionMetadata → List SessionMetadata
  | [] => []
  | x :: xs => insertByLe le x (sortByLe le xs)

/-- `PersistentSessionStorage.list_user_sessions`
(`session_storage.py:208-257`): filter the decoded records by owner, sort
newest-first by `created_at`, slice `[offset : offset + limit]`; any
internal exception yields the empty list. -/
def list_user_sessions (fs : FileState) (readRaises : Bool) (uid : String)
    (limit offset : Nat) : List SessionMetadata :=
  match readStorage fs readRaises with
  | .ok data =>
      let userSessions := (data.filter (fun p => p.2.user_id = uid)).map (·.2)
      let sorted := sortByLe createdDescLe userSessions
      (sorted.drop offset).take limit
  | .error _ => []

/-- Per-record decision of `cleanup_old_sessions`
(`session_storage.py:315-326`).  The `try` block both parses
`created_at_str` and compares the result with the naive cutoff, and
`except (ValueError, TypeError)` marks the record for removal: so an
unparseable (non-empty) string is removed, an offset-aware instant is
removed because the naive/aware comparison raises `TypeError`, and a
naive instant is removed exactly when it lies before the cutoff.  A
missing or empty (`if created_at_str:` falsy) value skips the whole
block and the record is kept. -/
def cleanupRemoves (md : SessionMetadata) (cutoff : Int) : Bool :=
  match md.created_at with
  | none => false
  | some ts =>
      if ts.isTruthy then
        match ts.fromisoformat with
        | some t => if ts.isAware then true else decide (t < cutoff)
        | none => true
      else false

/-- `PersistentSessionStorage.cleanup_old_sessions`
(`session_storage.py:296-352`): cutoff is
`datetime.utcnow() - timedelta(days=max_age_days)` (in seconds:
`now - maxAgeDays * 86400`); marked records are deleted and the file is
rewritten only when at least one was marked; the count of marked records
is returned; any internal exception yields `0` with the file unchanged. -/
def cleanup_old_sessions (fs : FileState) (readRaises writeRaises : Bool)
    (maxAgeDays : Int) (now : Int) : Nat × FileState :=
  let cutoff := now - maxAgeDays * 86400
  let body : Except String (Nat × FileState) := do
    let data ← readStorage fs readRaises
    let sessionsToRemove :=
      (data.filter (fun p => cleanupRemoves p.2 cutoff)).map Prod.fst
    let data' := sessionsToRemove.foldl (fun acc sid => eraseMeta acc sid) data
    if sessionsToRemove.isEmpty then
      pure (sessionsToRemove.length, fs)
    else do
      let fs' ← writeStorage fs writeRaises data'
      pure (sessionsToRemove.length, fs')
  match body with
  | .ok r => r
  | .error _ => (0, fs)

/-! ## Session pool (`app/services/session_manager.py`) -/

/-- One value of `SessionManager.active_sessions`
(`session_manager.py:39-49`): the live client is identified by a numeric
handle; `workingDir`, `userId`, the two clock fields and the
`is_connected` flag mirror the dict entries. -/
structure SessionInfo where
  client : Nat
  workingDir : String
  userId : String
  lastUsed : Int
  createdAt : Int
  isConnected : Bool
deriving DecidableEq, Repr

/-- The pool's entry table `active_sessions`, a dict keyed by session id. -/
abbrev Pool := List (String × SessionInfo)

/-- `active_sessions.get(session_id)` / `session_id in active_sessions`. -/
def findSession : Pool → String → Option SessionInfo
  | [], _ => none
  | (k, info) :: rest, sid => if k = sid then some info else findSession rest sid

/-- `active_sessions[session_id] = info` (dict update-or-append). -/
def setSession : Pool → String → SessionInfo → Pool
  | [], sid, info => [(sid, info)]
  | (k, old) :: rest, sid, info =>
      if k = sid then (k, info) :: rest else (k, old) :: setSession rest sid info

/-- `del active_sessions[session_id]` (the dict holds at most one binding
per key; the recursion drops every binding of `sid`). -/
def delSession : Pool → String → Pool
  | [], _ => []
  | (k, info) :: rest, sid =>
      if k = sid then delSession rest sid else (k, info) :: delSession rest sid

/-- `SessionManager.cleanup_session` (`session_manager.py:219-272`):
`False` when the key is absent; otherwise best-effort `disconnect()`
(whose failure is logged and never blocks removal), then the entry is
deleted and `True` returned. -/
def cleanup_session (pool : Pool) (sid : String) : Bool × Pool :=
  match findSession pool sid with
  | none => (false, pool)
  | some _ => (true, delSession pool sid)

/-- The `sessions_to_remove` list built by one pass of
`SessionManager._cleanup_loop` (`session_manager.py:293-299`): every key
whose `current_time - last_used > session_timeout`. -/
def sessionsToRemove (pool : Pool) (currentTime sessionTimeout : Int) :
    List String :=
  (pool.filter (fun p => decide (currentTime - p.2.lastUsed > sessionTimeout))).map (·.1)

/-- One wake-up of the sweep (`session_manager.py:293-312`): collect the
idle keys, then `cleanup_session` each of them. -/
def cleanupPass (pool : Pool) (currentTime sessionTimeout : Int) : Pool :=
  (sessionsToRemove pool currentTime sessionTimeout).foldl
    (fun acc sid => (cleanup_session acc sid).2) pool

/-! ## Get-or-create (`SessionManager.get_or_create_session`) -/

/-- Outcome of the connection factory: constructing a `ClaudeSDKClient`
and awaiting `client.connect()` either yields a live client (whose own
`session_id` attribute, when present, is reported alongside) or raises. -/
inductive ConnectOutcome where
  | ok (client : Nat) (clientSessionId : Option String)
  | err (msg : String)
deriving DecidableEq, Repr

/-- The fresh entry inserted at `session_manager.py:150-157`:
`last_used = created_at = time.time()`, `is_connected = True`. -/
def freshInfo (client : Nat) (wd uid : String) (now : Int) : SessionInfo :=
  { client := client, workingDir := wd, userId := uid,
    lastUsed := now, createdAt := now, isConnected := true }

/-- The creation block of `get_or_create_session`
(`session_manager.py:112-188`): on factory failure the `except` re-raises
`RuntimeError(f"Failed to create session {session_id}: {e}")` and the
pool is left as the creation path found it; on success, when
`is_new_session` the provider-assigned id replaces the requested one if
it is truthy and different (`session_manager.py:135-147`), and the new
entry is inserted under the final id. -/
def createSessionClient (pool : Pool) (sid wd uid : String)
    (isNewSession : Bool) (connect : ConnectOutcome) (now : Int) :
    Except String Nat × Pool :=
  match connect with
  | .err m => (.error ("Failed to create session " ++ sid ++ ": " ++ m), pool)
  | .ok c clientSid =>
      let finalSid :=
        if isNewSession then
          match clientSid with
          | some s => if s ≠ "" ∧ s ≠ sid then s else sid
          | none => sid
        else sid
      (.ok c, setSession pool finalSid (freshInfo c wd uid now))

/-- `SessionManager.get_or_create_session` (`session_manager.py:63-188`)
as one sequential call: an existing entry is validated
(`_validate_client`, a pure local check abstracted by `validateOk`);
a valid entry gets `last_used` bumped and its client returned; an invalid
one is removed by `cleanup_session` and the call falls through to the
creation block. -/
def get_or_create_session (pool : Pool) (sid wd uid : String)
    (isNewSession : Bool) (validateOk : Nat → Bool)
    (connect : ConnectOutcome) (now : Int) : Except String Nat × Pool :=
  match findSession pool sid with
  | some info =>
      if validateOk info.client then
        (.ok info.client, setSession pool sid { info with lastUsed := now })
      else
        createSessionClient (cleanup_session pool sid).2 sid wd uid
          isNewSession connect now
  | none => createSessionClient pool sid wd uid isNewSession connect now

/-! ## Interleaving of concurrent `get_or_create_session` calls

`get_or_create_session` is an `async def` running on a single-threaded
asyncio event loop: control can change callers only at a suspension point
that actually yields.  On the path of a cold key with
`is_new_session=False` the only such point is `await client.connect()`
(`session_manager.py:132`) — the membership check, option building and
client construction before it run atomically, as do the insertion and
return after it (`_validate_client` and the logger never suspend).  Each
caller is therefore a two-block program; a schedule is the list of caller
indices picked at each step.  The existing-entry paths are folded into
the first block (their extra suspension inside `cleanup_session` could
only add interleavings, never remove the one exhibited below). -/

/-- Program counter of one caller of
`get_or_create_session(k, wd, uid, is_new_session=False)`. -/
inductive CallerPC where
  | start
  | connecting (client : Nat)
  | done (result : Except String Nat)
deriving Repr

/-- Shared state of the race: the pool, the number of factory
invocations so far (`ClaudeSDKClient(options)` constructions), a counter
handing out client handles, and each caller's program counter. -/
structure RaceState where
  pool : Pool
  factoryCalls : Nat
  nextClient : Nat
  callers : List CallerPC
deriving Repr

/-- Run caller `i` up to its next suspension point (or to completion).
All callers request the same cold-capable key `sid` with
`is_new_session=False`; every `connect()` succeeds. -/
def callerStep (sid wd uid : String) (validateOk : Nat → Bool) (now : Int)
    (gs : RaceState) (i : Nat) : RaceState :=
  match gs.callers.get? i with
  | none => gs
  | some pc =>
      match pc with
      | .done _ => gs
      | .start =>
          match findSession gs.pool sid with
          | some info =>
              if validateOk info.client then
                { gs with
                    pool := setSession gs.pool sid { info with lastUsed := now },
                    callers := gs.callers.set i (.done (.ok info.client)) }
              else
                { gs with
                    pool := (cleanup_session gs.pool sid).2,
                    factoryCalls := gs.factoryCalls + 1,
                    nextClient := gs.nextClient + 1,
                    callers := gs.callers.set i (.connecting gs.nextClient) }
          | none =>
              { gs with
                  factoryCalls := gs.factoryCalls + 1,
                  nextClient := gs.nextClient + 1,
                  callers := gs.callers.set i (.connecting gs.nextClient) }
      | .connecting c =>
          { gs with
              pool := setSession gs.pool sid (freshInfo c wd uid now),
              callers := gs.callers.set i (.done (.ok c)) }

/-- Run a whole schedule of caller picks. -/
def runRace (sid wd uid : String) (validateOk : Nat → Bool) (now : Int)
    (schedule : List Nat) (gs : RaceState) : RaceState :=
  schedule.foldl (callerStep sid wd uid validateOk now) gs

/-- N callers poised at the start, empty pool, no factory calls yet. -/
def initRace (n : Nat) : RaceState :=
  { pool := [], factoryCalls := 0, nextClient := 0,
    callers := List.replicate n .start }

/-! ## Owner access control (`ClaudeService`) -/

/-- The caller-facing session record built by `ClaudeService.get_session`
(`claude_service.py:421-442`); only the fields the claims mention are
kept, with the parsed instants. -/
structure SessionResponse where
  session_id : String
  user_id : String
  session_name : String
  created_at : Int
  updated_at : Int
deriving DecidableEq, Repr

/-- `ClaudeService.get_session` (`claude_service.py:382-454`): look the
key up in persistent storage — absent gives `None`; an `user_id` mismatch
gives `None` (logged as access denied, same return as not-found); then a
`SessionResponse` is built, `datetime.fromisoformat` on a missing or
unparseable `created_at`/`updated_at` raising inside the `try` whose
`except` also returns `None`.  `updated_at` falls back to `created_at`
(`session_metadata.get("updated_at", session_metadata.get("created_at"))`). -/
def service_get_session (fs : FileState) (readRaises : Bool)
    (sid uid : String) : Option SessionResponse :=
  match get_session fs readRaises sid with
  | none => none
  | some md =>
      if md.user_id ≠ uid then none
      else
        match md.created_at with
        | none => none
        | some cts =>
            match cts.fromisoformat with
            | none => none
            | some ct =>
                match (md.updated_at.getD cts).fromisoformat with
                | none => none
                | some ut =>
                    some { session_id := sid, user_id := uid,
                           session_name := md.session_name,
                           created_at := ct, updated_at := ut }

/-- `ClaudeService.delete_session` (`claude_service.py:527-573`): first
re-checks existence and ownership through `ClaudeService.get_session`;
a negative answer (not-found or owner mismatch alike) returns `False`
touching neither the pool nor the store; otherwise the session is removed
from the `SessionManager` (when one is attached) and from persistent
storage, and `True` is returned. -/
def service_delete_session (fs : FileState) (pool : Pool)
    (readRaises writeRaises : Bool) (sid uid : String) :
    Bool × Pool × FileState :=
  match service_get_session fs readRaises sid uid with
  | none => (false, pool, fs)
  | some _ =>
      let pool' := (cleanup_session pool sid).2
      let (_, fs') := remove_session fs readRaises writeRaises sid
      (true, pool', fs')

/-! ## Recovery utilities (`app/utils/session_utils.py`) -/

/-- The diagnostic fields of `recover_session`'s return dict that the
recoverability verdict is built from (`session_utils.py:126-188`).
`fileExists` is the top-level `"exists"` key; `readable` is
`diagnostics["readable"]` (unset — `none` — when the file is missing);
the line counters mirror `total_lines` / `valid_lines` /
`len(invalid_lines)`. -/
structure RecoveryResult where
  session_id : String
  fileExists : Bool
  readable : Option Bool
  totalLines : Nat
  validLines : Nat
  invalidLines : Nat
  recoverable : Bool
deriving DecidableEq, Repr

/-- `recover_session` (`session_utils.py:112-188`).  The backing `.jsonl`
record is `file : Option (List String)` (`none` when the file does not
exist, otherwise its lines); `readable` models `os.access(file, R_OK)`,
and an unreadable file makes the subsequent `open` raise, landing in the
outer `except` with `recoverable` still `False`; `parseLine` models
`json.loads(line.strip())` succeeding.  When the scan completes,
`recoverable = readable and valid_lines > 0 and len(invalid_lines) == 0`
(`session_utils.py:181-185`). -/
def recover_session (sid : String) (file : Option (List String))
    (readable : Bool) (parseLine : String → Bool) : RecoveryResult :=
  match file with
  | none =>
      { session_id := sid, fileExists := false, readable := none,
        totalLines := 0, validLines := 0, invalidLines := 0,
        recoverable := false }
  | some lines =>
      if readable then
        let total := lines.length
        let valid := (lines.filter parseLine).length
        let invalid := (lines.filter (fun l => ¬ parseLine l)).length
        { session_id := sid, fileExists := true, readable := some true,
          totalLines := total, validLines := valid, invalidLines := invalid,
          recoverable := decide (0 < valid) && decide (invalid = 0) }
      else
        { session_id := sid, fileExists := true, readable := some false,
          totalLines := 0, validLines := 0, invalidLines := 0,
          recoverable := false }

/-- The report dict of `cleanup_orphaned_sessions`
(`session_utils.py:663-670`), restricted to the fields the claims use. -/
structure OrphanReport where
  orphanedInManager : List String
  orphanedInStorage : List String
  cleanedUp : List String
  errors : List String
  dryRun : Bool
deriving DecidableEq, Repr

/-- Keys present in the pool but not in the decoded store
(`active_session_ids - storage_session_ids`). -/
def poolOnlyKeys (pool : Pool) (data : List (String × SessionMetadata)) :
    List String :=
  (pool.map (·.1)).filter (fun k => ¬ (data.map (·.1)).contains k)

/-- Keys present in the decoded store but not in the pool
(`storage_session_ids - active_session_ids`). -/
def storeOnlyKeys (pool : Pool) (data : List (String × SessionMetadata)) :
    List String :=
  (data.map (·.1)).filter (fun k => ¬ (pool.map (·.1)).contains k)

/-- `cleanup_orphaned_sessions` (`session_utils.py:646-729`): the orphan
sets are the two set-differences between the pool's keys
(`session_manager.get_active_session_ids()`) and the keys of the store
file read directly via `_read_storage` (which may raise, landing in the
outer `except` that records the error and returns the untouched report).
When `dry_run` the reporting is all that happens; otherwise every
pool-only key goes through `session_manager.cleanup_session` and every
store-only key through `session_storage.remove_session`. -/
def cleanup_orphaned_sessions (pool : Pool) (fs : FileState)
    (readRaises writeRaises : Bool) (dryRun : Bool) :
    OrphanReport × Pool × FileState :=
  match readStorage fs readRaises with
  | .error e =>
      ({ orphanedInManager := [], orphanedInStorage := [], cleanedUp := [],
         errors := [e], dryRun := dryRun }, pool, fs)
  | .ok data =>
      let inManager := poolOnlyKeys pool data
      let inStorage := storeOnlyKeys pool data
      if dryRun then
        ({ orphanedInManager := inManager, orphanedInStorage := inStorage,
           cleanedUp := [], errors := [], dryRun := true }, pool, fs)
      else
        let pool' := inManager.foldl (fun acc sid => (cleanup_session acc sid).2) pool
        let cleanedMgr := inManager.map (fun sid => "manager:" ++ sid)
        let fsAndErrs := inStorage.foldl
          (fun (acc : FileState × List String × List String) sid =>
            let (fsAcc, cleaned, errs) := acc
            let (okRemoved, fsNext) := remove_session fsAcc readRaises writeRaises sid
            let _ := okRemoved
            (fsNext, cleaned ++ ["storage:" ++ sid], errs))
          (fs, cleanedMgr, [])
        ({ orphanedInManager := inManager, orphanedInStorage := inStorage,
           cleanedUp := fsAndErrs.2.1, errors := fsAndErrs.2.2, dryRun := false },
         pool', fsAndErrs.1)

/-! ## Association-list lemmas -/

/-- The records a file decodes to on a successful read. -/
def dataOfFile : FileState → List (String × SessionMetadata)
  | .absent => []
  | .valid data => data
  | .invalid _ => []

theorem readStorage_ok (fs : FileState) :
    readStorage fs false = .ok (dataOfFile fs) := by
  cases fs <;> rfl

theorem findMeta_setMeta_self :
    ∀ (data : List (String × SessionMetadata)) (sid : String) (md : SessionMetadata),
      findMeta (setMeta data sid md) sid = some md
  | [], sid, md => by simp [setMeta, findMeta]
  | (k, old) :: rest, sid, md => by
      by_cases h : k = sid
      · simp [setMeta, findMeta, h]
      · simp [setMeta, findMeta, h, findMeta_setMeta_self rest sid md]

theorem findMeta_eraseMeta :
    ∀ (data : List (String × SessionMetadata)) (k sid : String),
      findMeta (eraseMeta data k) sid
        = if sid = k then none else findMeta data sid
  | [], k, sid => by simp [eraseMeta, findMeta]
  | (k', md) :: rest, k, sid => by
      have ih := findMeta_eraseMeta rest k sid
      by_cases h1 : k' = k <;> by_cases h2 : k' = sid <;>
        by_cases h3 : sid = k <;> simp_all [eraseMeta, findMeta]

theorem findSession_delSession :
    ∀ (pool : Pool) (k sid : String),
      findSession (delSession pool k) sid
        = if sid = k then none else findSession pool sid
  | [], k, sid => by simp [delSession, findSession]
  | (k', info) :: rest, k, sid => by
      have ih := findSession_delSession rest k sid
      by_cases h1 : k' = k <;> by_cases h2 : k' = sid <;>
        by_cases h3 : sid = k <;> simp_all [delSession, findSession]

theorem findSession_cleanup_session (pool : Pool) (k sid : String) :
    findSession ((cleanup_session pool k).2) sid
      = if sid = k then none else findSession pool sid := by
  unfold cleanup_session
  cases h : findSession pool k with
  | none =>
      by_cases h2 : sid = k
      · subst h2; simp [h]
      · simp [h2]
  | some info => simp [findSession_delSession]

theorem findSession_foldl_cleanup :
    ∀ (ks : List String) (pool : Pool) (sid : String),
      findSession (ks.foldl (fun acc k => (cleanup_session acc k).2) pool) sid
        = if sid ∈ ks then none else findSession pool sid
  | [], pool, sid => by simp
  | k :: ks, pool, sid => by
      have ih := findSession_foldl_cleanup ks ((cleanup_session pool k).2) sid
      rw [List.foldl_cons, ih, findSession_cleanup_session]
      by_cases h1 : sid ∈ ks <;> by_cases h2 : sid = k <;> simp [h1, h2]

theorem findMeta_foldl_erase :
    ∀ (ks : List String) (data : List (String × SessionMetadata)) (sid : String),
      findMeta (ks.foldl (fun acc k => eraseMeta acc k) data) sid
        = if sid ∈ ks then none else findMeta data sid
  | [], data, sid => by simp
  | k :: ks, data, sid => by
      have ih := findMeta_foldl_erase ks (eraseMeta data k) sid
      rw [List.foldl_cons, ih, findMeta_eraseMeta]
      by_cases h1 : sid ∈ ks <;> by_cases h2 : sid = k <;> simp [h1, h2]

theorem findSession_eq_of_mem :
    ∀ (pool : Pool) (sid : String) (info : SessionInfo),
      (pool.map Prod.fst).Nodup → (sid, info) ∈ pool →
      findSession pool sid = some info
  | [], _, _, _, h => by simp at h
  | (k, i) :: rest, sid, info, hnd, hmem => by
      simp only [List.map_cons, List.nodup_cons] at hnd
      rcases List.mem_cons.mp hmem with heq | hrest
      · rw [show sid = k from congrArg Prod.fst heq,
          show info = i from congrArg Prod.snd heq]
        simp [findSession]
      · have hk : ¬ (k = sid) := by
          intro hk
          subst hk
          exact hnd.1 (List.mem_map.mpr ⟨(k, info), hrest, rfl⟩)
        simp [findSession, hk, findSession_eq_of_mem rest sid info hnd.2 hrest]

theorem findMeta_eq_of_mem :
    ∀ (data : List (String × SessionMetadata)) (sid : String) (md : SessionMetadata),
      (data.map Prod.fst).Nodup → (sid, md) ∈ data →
      findMeta data sid = some md
  | [], _, _, _, h => by simp at h
  | (k, m) :: rest, sid, md, hnd, hmem => by
      simp only [List.map_cons, List.nodup_cons] at hnd
      rcases List.mem_cons.mp hmem with heq | hrest
      · rw [show sid = k from congrArg Prod.fst heq,
          show md = m from congrArg Prod.snd heq]
        simp [findMeta]
      · have hk : ¬ (k = sid) := by
          intro hk
          subst hk
          exact hnd.1 (List.mem_map.mpr ⟨(k, md), hrest, rfl⟩)
        simp [findMeta, hk, findMeta_eq_of_mem rest sid md hnd.2 hrest]

theorem mem_sessionsToRemove {pool : Pool} {now tmo : Int} {sid : String}
    {info : SessionInfo} (hnd : (pool.map Prod.fst).Nodup)
    (hmem : (sid, info) ∈ pool) :
    sid ∈ sessionsToRemove pool now tmo ↔ now - info.lastUsed > tmo := by
  constructor
  · intro h
    obtain ⟨p, hp, hfst⟩ := List.mem_map.mp h
    have hpmem := (List.mem_filter.mp hp).1
    have hcond := (List.mem_filter.mp hp).2
    have h1 : findSession pool p.1 = some p.2 :=
      findSession_eq_of_mem pool p.1 p.2 hnd (by cases p; exact hpmem)
    have h2 : findSession pool sid = some info :=
      findSession_eq_of_mem pool sid info hnd hmem
    rw [hfst] at h1
    rw [h1] at h2
    cases h2
    exact of_decide_eq_true hcond
  · intro h
    exact List.mem_map.mpr
      ⟨(sid, info), List.mem_filter.mpr ⟨hmem, decide_eq_true h⟩, rfl⟩

/-! ## Claim theorems -/

/-- C2: one pass of the sweep loop evicts a pool entry exactly when the
time elapsed since its `last_used` strictly exceeds `session_timeout` at
the moment of the pass (`current_time - last_used > session_timeout`,
`session_manager.py:298`); in particular an entry whose idle time is
strictly below (or equal to) the timeout survives the pass untouched. -/
theorem sweep_evicts_iff_idle_exceeds_timeout (pool : Pool) (now tmo : Int)
    (sid : String) (info : SessionInfo)
    (hnd : (pool.map Prod.fst).Nodup) (hmem : (sid, info) ∈ pool) :
    findSession (cleanupPass pool now tmo) sid
      = if now - info.lastUsed > tmo then none else some info := by
  unfold cleanupPass
  rw [findSession_foldl_cleanup]
  by_cases h : now - info.lastUsed > tmo
  · simp [h, (mem_sessionsToRemove hnd hmem).mpr h]
  · have hnot : sid ∉ sessionsToRemove pool now tmo := fun hmemr =>
      h ((mem_sessionsToRemove hnd hmem).mp hmemr)
    simp [h, hnot, findSession_eq_of_mem pool sid info hnd hmem]

/-- Witness for C2, following the spec's concrete scenario 1:
`sessionTimeout = 60`, a session created at 0 and touched at 30 is still
present after a sweep at 70 (idle 40) and gone after a sweep at 100
(idle 70). -/
theorem sweep_evicts_iff_idle_exceeds_timeout_witness :
    findSession (cleanupPass [("s1", freshInfo 0 "/w" "u1" 30)] 70 60) "s1"
        = some (freshInfo 0 "/w" "u1" 30)
  ∧ findSession (cleanupPass [("s1", freshInfo 0 "/w" "u1" 30)] 100 60) "s1"
        = none := by
  constructor
  · have h := sweep_evicts_iff_idle_exceeds_timeout
      [("s1", freshInfo 0 "/w" "u1" 30)] 70 60 "s1" (freshInfo 0 "/w" "u1" 30)
      (by decide) (by decide)
    simpa using h
  · have h := sweep_evicts_iff_idle_exceeds_timeout
      [("s1", freshInfo 0 "/w" "u1" 30)] 100 60 "s1" (freshInfo 0 "/w" "u1" 30)
      (by decide) (by decide)
    simpa using h

/-- C4: when a call to `get_or_create_session` reaches the creation block
(no entry for the key, or an entry that fails validation and is removed)
and the factory fails, the call surfaces `RuntimeError("Failed to create
session {session_id}: {e}")` (`session_manager.py:188`) and no pool entry
for the key exists afterwards. -/
theorem creation_failure_leaves_no_entry (pool : Pool) (sid wd uid : String)
    (isNew : Bool) (validateOk : Nat → Bool) (m : String) (now : Int)
    (hreach : findSession pool sid = none
      ∨ ∃ info, findSession pool sid = some info ∧ validateOk info.client = false) :
    (get_or_create_session pool sid wd uid isNew validateOk (.err m) now).1
        = .error ("Failed to create session " ++ sid ++ ": " ++ m)
  ∧ findSession
        (get_or_create_session pool sid wd uid isNew validateOk (.err m) now).2
        sid = none := by
  rcases hreach with h | ⟨info, h, hv⟩
  · simp [get_or_create_session, h, createSessionClient]
  · simp [get_or_create_session, h, hv, createSessionClient,
      findSession_cleanup_session]

/-- Witness for C4: a cold key, and a key holding an entry that fails
validation, both end up absent after a failed creation. -/
theorem creation_failure_leaves_no_entry_witness :
    (get_or_create_session [] "k" "/w" "u" false (fun _ => true)
        (.err "boom") 5).1 = .error "Failed to create session k: boom"
  ∧ findSession (get_or_create_session [("k", freshInfo 7 "/w" "u" 0)] "k"
        "/w" "u" false (fun _ => false) (.err "boom") 5).2 "k" = none := by
  constructor
  · have h := creation_failure_leaves_no_entry [] "k" "/w" "u" false
      (fun _ => true) "boom" 5 (Or.inl (by decide))
    simpa using h.1
  · have h := creation_failure_leaves_no_entry
      [("k", freshInfo 7 "/w" "u" 0)] "k" "/w" "u" false (fun _ => false)
      "boom" 5 (Or.inr ⟨freshInfo 7 "/w" "u" 0, by decide, rfl⟩)
    exact h.2

/-- A successful `store_session` (no injected failures) rewrites the file
with the built record upserted. -/
theorem store_session_ok (fs : FileState) (sid uid wd : String)
    (name : Option String) (createdAt : Option Int) (now : Int) :
    store_session fs false false sid uid wd name createdAt now
      = (true, .valid (setMeta (dataOfFile fs) sid
          (buildMetadata sid uid wd name createdAt now))) := by
  simp [store_session, readStorage_ok, writeStorage, Except.bind, Bind.bind]

/-- The instant denoted by the `updated_at` field stored under `sid`. -/
def storedUpdatedInstant (fs : FileState) (sid : String) : Option Int :=
  ((get_session fs false sid).bind (fun md => md.updated_at)).bind
    TimeStr.fromisoformat

/-- C5: reading `sid` back after two successive `store_session` calls for
it returns exactly the fields passed to the most recent call
(`session_id`, `user_id`, `working_directory`, a non-empty
`session_name`, and the given `created_at` instant), while `updated_at`
is the storing call's own clock instant — so across calls whose clock
strictly advances (`t1 < t2`) the stored `updated_at` strictly
increases. -/
theorem store_get_roundtrip (fs : FileState)
    (sid uid1 uid wd1 wd name1 name : String) (tc1 tc t1 t2 : Int)
    (hname : name ≠ "") (hclock : t1 < t2) :
    get_session (store_session (store_session fs false false sid uid1 wd1
          (some name1) (some tc1) t1).2 false false sid uid wd (some name)
          (some tc) t2).2 false sid
      = some { session_id := sid, user_id := uid, working_directory := wd,
               session_name := name, created_at := some (.iso tc),
               updated_at := some (.iso t2) }
  ∧ storedUpdatedInstant (store_session fs false false sid uid1 wd1
        (some name1) (some tc1) t1).2 sid = some t1
  ∧ storedUpdatedInstant (store_session (store_session fs false false sid
        uid1 wd1 (some name1) (some tc1) t1).2 false false sid uid wd
        (some name) (some tc) t2).2 sid = some t2
  ∧ t1 < t2 := by
  refine ⟨?_, ?_, ?_, hclock⟩
  · rw [store_session_ok, store_session_ok]
    simp [get_session, readStorage, findMeta_setMeta_self, buildMetadata, hname]
  · rw [store_session_ok]
    simp [storedUpdatedInstant, get_session, readStorage,
      findMeta_setMeta_self, buildMetadata, TimeStr.fromisoformat]
  · rw [store_session_ok, store_session_ok]
    simp [storedUpdatedInstant, get_session, readStorage,
      findMeta_setMeta_self, buildMetadata, TimeStr.fromisoformat]

/-- Witness for C5 at concrete inputs. -/
theorem store_get_roundtrip_witness :
    get_session (store_session (store_session .absent false false "k" "u0"
          "/w0" (some "old") (some 1) 10).2 false false "k" "u1" "/w1"
          (some "mine") (some 2) 20).2 false "k"
      = some { session_id := "k", user_id := "u1", working_directory := "/w1",
               session_name := "mine", created_at := some (.iso 2),
               updated_at := some (.iso 20) }
  ∧ storedUpdatedInstant (store_session .absent false false "k" "u0" "/w0"
        (some "old") (some 1) 10).2 "k" = some 10
  ∧ storedUpdatedInstant (store_session (store_session .absent false false
        "k" "u0" "/w0" (some "old") (some 1) 10).2 false false "k" "u1"
        "/w1" (some "mine") (some 2) 20).2 "k" = some 20
  ∧ (10 : Int) < 20 := by
  have h := store_get_roundtrip .absent "k" "u0" "u1" "/w0" "/w1" "old"
    "mine" 1 2 10 20 (by decide) (by decide)
  exact h

/-- C6: a durable file holding unparseable bytes (such as the literal
`"not valid data"`) opens without raising and behaves as an empty store
(the corrupt bytes are even left in place, because `_read_storage`
swallows the `JSONDecodeError` itself); a read failure that does surface
(e.g. an `OSError`) makes `_ensure_storage_file` reset the file to an
empty store.  Either way, a subsequent `store_session` followed by
`get_session` on the same key returns the just-stored record. -/
theorem corrupt_file_recovers_as_empty_store (raw : String)
    (sid other uid wd : String) (name : Option String) (tc : Option Int)
    (now : Int) :
    ensureStorageFile (.invalid raw) false false = .ok (.invalid raw)
  ∧ (∀ fs : FileState, ensureStorageFile fs true false = .ok (.valid []))
  ∧ get_session (.invalid raw) false other = none
  ∧ (store_session (.invalid raw) false false sid uid wd name tc now).1 = true
  ∧ get_session (store_session (.invalid raw) false false sid uid wd name
        tc now).2 false sid = some (buildMetadata sid uid wd name tc now) := by
  refine ⟨rfl, ?_, rfl, ?_, ?_⟩
  · intro fs; cases fs <;> rfl
  · rw [store_session_ok]
  · rw [store_session_ok]
    simp [get_session, readStorage, dataOfFile, findMeta_setMeta_self]

/-- C9: every public operation of `PersistentSessionStorage` is total (no
exception escapes its outer `try/except`) and maps an internal failure to
its neutral value with the durable file untouched: `False` for
`store_session` (read or write failure) and `remove_session` (read
failure, or write failure while the key is present), `None` for
`get_session`, the empty list for `list_user_sessions`, and `0` for
`cleanup_old_sessions` (read failure, or write failure while some stale
record was marked for removal). -/
theorem storage_ops_neutral_on_failure (fs : FileState)
    (data : List (String × SessionMetadata)) (sid uid wd : String)
    (name : Option String) (tc : Option Int) (now : Int)
    (limit offset : Nat) (days : Int)
    (hpresent : findMeta data sid ≠ none) :
    store_session fs true false sid uid wd name tc now = (false, fs)
  ∧ store_session fs false true sid uid wd name tc now = (false, fs)
  ∧ get_session fs true sid = none
  ∧ list_user_sessions fs true uid limit offset = []
  ∧ remove_session fs true false sid = (false, fs)
  ∧ remove_session (.valid data) false true sid = (false, .valid data)
  ∧ cleanup_old_sessions fs true false days now = (0, fs)
  ∧ cleanup_old_sessions
        (.valid [(sid, buildMetadata sid uid wd name
          (some (now - days * 86400 - 1)) now)]) false true days now
      = (0, .valid [(sid, buildMetadata sid uid wd name
          (some (now - days * 86400 - 1)) now)]) := by
  obtain ⟨md, hmd⟩ : ∃ md, findMeta data sid = some md := by
    cases h : findMeta data sid with
    | none => exact absurd h hpresent
    | some md => exact ⟨md, rfl⟩
  have hlt : now - days * 86400 - 1 < now - days * 86400 := by omega
  refine ⟨?_, ?_, rfl, rfl, rfl, ?_, rfl, ?_⟩
  · simp [store_session, readStorage, Except.bind, Bind.bind]
  · simp [store_session, readStorage_ok, writeStorage, Except.bind, Bind.bind]
  · simp [remove_session, readStorage, writeStorage, hmd,
      Except.bind, Bind.bind]
  · simp [cleanup_old_sessions, readStorage, writeStorage, cleanupRemoves,
      buildMetadata, TimeStr.isTruthy, TimeStr.fromisoformat, TimeStr.isAware,
      hlt, Except.bind, Bind.bind]

/-- Witness for C9 at concrete inputs. -/
theorem storage_ops_neutral_on_failure_witness :
    store_session .absent true false "k" "u" "/w" none none 0 = (false, .absent)
  ∧ store_session .absent false true "k" "u" "/w" none none 0 = (false, .absent)
  ∧ get_session .absent true "k" = none
  ∧ list_user_sessions .absent true "u" 10 0 = []
  ∧ remove_session .absent true false "k" = (false, .absent)
  ∧ remove_session (.valid [("k", buildMetadata "k" "u" "/w" none none 0)])
        false true "k"
      = (false, .valid [("k", buildMetadata "k" "u" "/w" none none 0)])
  ∧ cleanup_old_sessions .absent true false 30 0 = (0, .absent)
  ∧ cleanup_old_sessions
        (.valid [("k", buildMetadata "k" "u" "/w" none
          (some ((0 : Int) - 30 * 86400 - 1)) 0)]) false true 30 0
      = (0, .valid [("k", buildMetadata "k" "u" "/w" none
          (some ((0 : Int) - 30 * 86400 - 1)) 0)]) := by
  have h := storage_ops_neutral_on_failure .absent
    [("k", buildMetadata "k" "u" "/w" none none 0)] "k" "u" "/w" none none 0
    10 0 30 (by simp [findMeta, buildMetadata])
  exact h

/-- C7: the diagnostic report of `recover_session` has
`recoverable = True` exactly when the backing `.jsonl` record exists, is
readable, contains at least one line that parses as JSON, and contains
no line that fails to parse (`session_utils.py:181-185`). -/
theorem recover_recoverable_iff (sid : String) (file : Option (List String))
    (readable : Bool) (parseLine : String → Bool) :
    (recover_session sid file readable parseLine).recoverable = true
      ↔ ∃ lines, file = some lines ∧ readable = true
          ∧ (∃ l ∈ lines, parseLine l = true)
          ∧ (∀ l ∈ lines, parseLine l = true) := by
  cases file with
  | none => simp [recover_session]
  | some lines =>
      cases readable with
      | false => simp [recover_session]
      | true =>
          have hred :
              (recover_session sid (some lines) true parseLine).recoverable
                = (decide (0 < (lines.filter parseLine).length)
                  && decide ((lines.filter (fun l => ¬ parseLine l)).length
                      = 0)) := rfl
          rw [hred, Bool.and_eq_true, decide_eq_true_eq, decide_eq_true_eq]
          constructor
          · rintro ⟨hpos, hzero⟩
            refine ⟨lines, rfl, rfl, ?_, ?_⟩
            · obtain ⟨l, hl⟩ := List.exists_mem_of_length_pos hpos
              exact ⟨l, (List.mem_filter.mp hl).1, (List.mem_filter.mp hl).2⟩
            · intro l hl
              by_contra hnp
              have hmem : l ∈ lines.filter (fun x => ¬ parseLine x) :=
                List.mem_filter.mpr ⟨hl, by simp [hnp]⟩
              rw [List.length_eq_zero] at hzero
              rw [hzero] at hmem
              exact absurd hmem (List.not_mem_nil l)
          · rintro ⟨lines', heq, -, ⟨l, hl, hp⟩, hall⟩
            cases heq
            refine ⟨?_, ?_⟩
            · exact List.length_pos_of_mem (List.mem_filter.mpr ⟨hl, hp⟩)
            · rw [List.length_eq_zero, List.filter_eq_nil_iff]
              intro a ha
              simp [hall a ha]

/-- C8: with `dry_run=True`, `cleanup_orphaned_sessions` reports the
pool-only and store-only orphan keys and leaves both the pool's entry
table and the durable file exactly as they were — the whole mutation
block sits under `if not dry_run:` (`session_utils.py:687`). -/
theorem reconcile_dry_run_frame (pool : Pool) (fs : FileState)
    (readRaises writeRaises : Bool) :
    (cleanup_orphaned_sessions pool fs readRaises writeRaises true).2.1 = pool
  ∧ (cleanup_orphaned_sessions pool fs readRaises writeRaises true).2.2 = fs
  ∧ (cleanup_orphaned_sessions pool fs readRaises writeRaises true).1.cleanedUp
      = []
  ∧ (cleanup_orphaned_sessions pool fs false writeRaises true).1.orphanedInManager
      = poolOnlyKeys pool (dataOfFile fs)
  ∧ (cleanup_orphaned_sessions pool fs false writeRaises true).1.orphanedInStorage
      = storeOnlyKeys pool (dataOfFile fs) := by
  refine ⟨?_, ?_, ?_, ?_, ?_⟩ <;>
    cases h : readStorage fs readRaises <;>
      simp_all [cleanup_orphaned_sessions, readStorage_ok]

/-- C3: a read (`ClaudeService.get_session`) or delete
(`ClaudeService.delete_session`) whose caller's `user_id` does not match
the stored record's owner returns exactly the negative result of a
missing key — `None` for the read, `False` (with pool and store
untouched) for the delete — so the caller cannot tell AccessDenied from
NotFound (`claude_service.py:400-410` and the `if not session:` branch of
`delete_session`). -/
theorem owner_mismatch_indistinguishable_from_not_found
    (fs : FileState) (pool : Pool) (readRaises writeRaises : Bool)
    (sid sid' uid : String) (md : SessionMetadata)
    (hfound : get_session fs readRaises sid = some md)
    (hmismatch : md.user_id ≠ uid)
    (habsent : get_session fs readRaises sid' = none) :
    service_get_session fs readRaises sid uid = none
  ∧ service_delete_session fs pool readRaises writeRaises sid uid
      = (false, pool, fs)
  ∧ service_get_session fs readRaises sid' uid = none
  ∧ service_delete_session fs pool readRaises writeRaises sid' uid
      = (false, pool, fs) := by
  have hget : service_get_session fs readRaises sid uid = none := by
    simp [service_get_session, hfound, hmismatch]
  have hget' : service_get_session fs readRaises sid' uid = none := by
    simp [service_get_session, habsent]
  refine ⟨hget, ?_, hget', ?_⟩
  · simp [service_delete_session, hget]
  · simp [service_delete_session, hget']

/-- Witness for C3: a store holding `"a"` owned by `"u1"`, queried as
`"u2"` for `"a"` and for the missing key `"b"`. -/
theorem owner_mismatch_indistinguishable_witness :
    service_get_session (.valid [("a", buildMetadata "a" "u1" "/w" none none 0)])
        false "a" "u2" = none
  ∧ service_delete_session (.valid [("a", buildMetadata "a" "u1" "/w" none none 0)])
        [] false false "a" "u2"
      = (false, [], .valid [("a", buildMetadata "a" "u1" "/w" none none 0)])
  ∧ service_get_session (.valid [("a", buildMetadata "a" "u1" "/w" none none 0)])
        false "b" "u2" = none
  ∧ service_delete_session (.valid [("a", buildMetadata "a" "u1" "/w" none none 0)])
        [] false false "b" "u2"
      = (false, [], .valid [("a", buildMetadata "a" "u1" "/w" none none 0)]) := by
  have h := owner_mismatch_indistinguishable_from_not_found
    (.valid [("a", buildMetadata "a" "u1" "/w" none none 0)]) [] false false
    "a" "b" "u2" (buildMetadata "a" "u1" "/w" none none 0)
    (by simp [get_session, readStorage, findMeta])
    (by simp [buildMetadata])
    (by simp [get_session, readStorage, findMeta])
  exact h

/-- The eviction rule of `cleanup_old_sessions` in the words of the
amended claim: a record is removed exactly when its `created_at` is
present and non-empty, and either fails to parse, or parses to an
offset-aware instant (whose comparison with the naive cutoff raises
`TypeError`, handled like a parse failure), or parses to a naive instant
older than the cutoff. -/
def cleanupRemovesSpec (md : SessionMetadata) (cutoff : Int) : Prop :=
  ∃ ts, md.created_at = some ts ∧ ts.isTruthy = true ∧
    (ts.fromisoformat = none ∨ ts.isAware = true ∨
      ∃ t, ts.fromisoformat = some t ∧ ts.isAware = false ∧ t < cutoff)

theorem cleanupRemoves_iff_spec (md : SessionMetadata) (cutoff : Int) :
    cleanupRemoves md cutoff = true ↔ cleanupRemovesSpec md cutoff := by
  cases h : md.created_at with
  | none => simp [cleanupRemoves, cleanupRemovesSpec, h]
  | some ts =>
      cases ts with
      | iso t =>
          simp [cleanupRemoves, cleanupRemovesSpec, h, TimeStr.isTruthy,
            TimeStr.fromisoformat, TimeStr.isAware]
      | isoZ t =>
          simp [cleanupRemoves, cleanupRemovesSpec, h, TimeStr.isTruthy,
            TimeStr.fromisoformat, TimeStr.isAware]
      | garbage s =>
          by_cases hs : s = "" <;>
            simp [cleanupRemoves, cleanupRemovesSpec, h, TimeStr.isTruthy,
              TimeStr.fromisoformat, TimeStr.isAware, hs]

theorem mem_cleanupKeys {data : List (String × SessionMetadata)}
    {cutoff : Int} {sid : String} {md : SessionMetadata}
    (hnd : (data.map Prod.fst).Nodup) (hmem : (sid, md) ∈ data) :
    sid ∈ (data.filter (fun p => cleanupRemoves p.2 cutoff)).map Prod.fst
      ↔ cleanupRemoves md cutoff = true := by
  constructor
  · intro h
    obtain ⟨p, hp, hfst⟩ := List.mem_map.mp h
    have hpmem := (List.mem_filter.mp hp).1
    have hcond := (List.mem_filter.mp hp).2
    have h1 : findMeta data p.1 = some p.2 :=
      findMeta_eq_of_mem data p.1 p.2 hnd (by cases p; exact hpmem)
    have h2 : findMeta data sid = some md :=
      findMeta_eq_of_mem data sid md hnd hmem
    rw [hfst] at h1
    rw [h1] at h2
    cases h2
    exact hcond
  · intro h
    exact List.mem_map.mpr ⟨(sid, md), List.mem_filter.mpr ⟨hmem, h⟩, rfl⟩

/-- A no-failure `cleanup_old_sessions` returns the length of the marked
list and the file with every marked key erased (when nothing is marked
the file is not rewritten, which coincides with erasing nothing). -/
theorem cleanup_old_sessions_ok (data : List (String × SessionMetadata))
    (days now : Int) :
    cleanup_old_sessions (.valid data) false false days now
      = (((data.filter (fun p => cleanupRemoves p.2 (now - days * 86400))).map
            Prod.fst).length,
         .valid (((data.filter (fun p => cleanupRemoves p.2
              (now - days * 86400))).map Prod.fst).foldl
            (fun acc sid => eraseMeta acc sid) data)) := by
  by_cases h : (data.filter (fun p => cleanupRemoves p.2
      (now - days * 86400))).map Prod.fst = []
  · simp [cleanup_old_sessions, readStorage, writeStorage, h,
      Except.bind, Bind.bind, Pure.pure, Except.pure]
  · simp [cleanup_old_sessions, readStorage, writeStorage, h,
      List.isEmpty_iff, Except.bind, Bind.bind, Pure.pure, Except.pure]

/-- C10 (amended): for a well-formed store, `cleanup_old_sessions`
removes a record exactly under `cleanupRemovesSpec` — kept when
`created_at` is absent *or empty*, removed when it is non-empty and
unparseable, removed regardless of age when it parses offset-aware, and
otherwise removed exactly when older than the cutoff — and the returned
count is the number of marked (hence removed) records. -/
theorem cleanup_old_sessions_characterization
    (data : List (String × SessionMetadata)) (days now : Int)
    (sid : String) (md : SessionMetadata)
    (hnd : (data.map Prod.fst).Nodup) (hmem : (sid, md) ∈ data) :
    (findMeta (dataOfFile
          (cleanup_old_sessions (.valid data) false false days now).2) sid
        = none
      ↔ cleanupRemovesSpec md (now - days * 86400))
  ∧ (cleanup_old_sessions (.valid data) false false days now).1
      = (data.filter (fun p => cleanupRemoves p.2 (now - days * 86400))).length := by
  rw [cleanup_old_sessions_ok]
  refine ⟨?_, by simp⟩
  simp only [dataOfFile]
  rw [findMeta_foldl_erase]
  rw [← cleanupRemoves_iff_spec md (now - days * 86400)]
  by_cases h : sid ∈ (data.filter (fun p => cleanupRemoves p.2
      (now - days * 86400))).map Prod.fst
  · simp [h, (mem_cleanupKeys hnd hmem).mp h]
  · have hkeep : ¬ cleanupRemoves md (now - days * 86400) = true := fun hc =>
      h ((mem_cleanupKeys hnd hmem).mpr hc)
    simp [h, hkeep, findMeta_eq_of_mem data sid md hnd hmem]

/-- Witness for C10's amended theorem: a two-record store where the
stale naive record is removed and the fresh one kept. -/
theorem cleanup_old_sessions_characterization_witness :
    (findMeta (dataOfFile
          (cleanup_old_sessions (.valid
            [("old", buildMetadata "old" "u" "/w" none (some 0) 0),
             ("new", buildMetadata "new" "u" "/w" none (some 172800) 172800)])
            false false 1 172800).2) "old" = none
      ↔ cleanupRemovesSpec (buildMetadata "old" "u" "/w" none (some 0) 0)
          (172800 - 1 * 86400))
  ∧ (cleanup_old_sessions (.valid
        [("old", buildMetadata "old" "u" "/w" none (some 0) 0),
         ("new", buildMetadata "new" "u" "/w" none (some 172800) 172800)])
        false false 1 172800).1
      = ([("old", buildMetadata "old" "u" "/w" none (some 0) 0),
          ("new", buildMetadata "new" "u" "/w" none (some 172800) 172800)].filter
          (fun p => cleanupRemoves p.2 (172800 - 1 * 86400))).length := by
  have h := cleanup_old_sessions_characterization
    [("old", buildMetadata "old" "u" "/w" none (some 0) 0),
     ("new", buildMetadata "new" "u" "/w" none (some 172800) 172800)]
    1 172800 "old" (buildMetadata "old" "u" "/w" none (some 0) 0)
    (by decide) (by decide)
  exact h

/-- C10 counterexample to the claim as stated: (a) a record whose
`created_at` is present and parseable (`fromisoformat` succeeds) and NOT
older than the cutoff is nevertheless removed, because it is offset-aware
and the age comparison raises `TypeError`, caught by the same handler as
a parse failure; (b) a record whose `created_at` is present but
unparseable is NOT removed when the string is empty, because
`if created_at_str:` is falsy and skips the whole check. -/
theorem cleanup_old_sessions_claim_counterexample :
    (cleanup_old_sessions (.valid
        [("k", { session_id := "k", user_id := "u", working_directory := "/w",
                 session_name := "n", created_at := some (.isoZ 172800),
                 updated_at := some (.iso 172800) })]) false false 1 172800).1
      = 1
  ∧ findMeta (dataOfFile (cleanup_old_sessions (.valid
        [("k", { session_id := "k", user_id := "u", working_directory := "/w",
                 session_name := "n", created_at := some (.isoZ 172800),
                 updated_at := some (.iso 172800) })]) false false 1 172800).2)
        "k" = none
  ∧ (TimeStr.isoZ 172800).fromisoformat = some 172800
  ∧ ¬ ((172800 : Int) < 172800 - 1 * 86400)
  ∧ (cleanup_old_sessions (.valid
        [("e", { session_id := "e", user_id := "u", working_directory := "/w",
                 session_name := "n", created_at := some (.garbage ""),
                 updated_at := none })]) false false 1 172800).1
      = 0
  ∧ findMeta (dataOfFile (cleanup_old_sessions (.valid
        [("e", { session_id := "e", user_id := "u", working_directory := "/w",
                 session_name := "n", created_at := some (.garbage ""),
                 updated_at := none })]) false false 1 172800).2) "e"
      = some { session_id := "e", user_id := "u", working_directory := "/w",
               session_name := "n", created_at := some (.garbage ""),
               updated_at := none }
  ∧ (TimeStr.garbage "").fromisoformat = none := by
  refine ⟨?_, ?_, rfl, by decide, ?_, ?_, rfl⟩ <;> decide

/-- C1 (failing execution): two concurrent `get_or_create_session` calls
for the same cold key `"k"` with `is_new_session=False`, interleaved at
the `await client.connect()` suspension point (schedule: caller 0 checks
and starts connecting, caller 1 checks and starts connecting, caller 0
inserts, caller 1 inserts), invoke the connection factory twice — each
caller observed the key absent before either inserted, because the code
takes no per-key lock around the creation path.  The pool map still ends
with a single entry for `"k"`, holding caller 1's client and orphaning
caller 0's live connection.  A non-overlapping schedule of the same two
calls invokes the factory exactly once, confirming that the interleaving
alone breaks the claim's "exactly once". -/
theorem concurrent_cold_creation_invokes_factory_twice :
    (runRace "k" "/w" "u" (fun _ => true) 0 [0, 1, 0, 1]
        (initRace 2)).factoryCalls = 2
  ∧ findSession (runRace "k" "/w" "u" (fun _ => true) 0 [0, 1, 0, 1]
        (initRace 2)).pool "k" = some (freshInfo 1 "/w" "u" 0)
  ∧ (runRace "k" "/w" "u" (fun _ => true) 0 [0, 1, 0, 1]
        (initRace 2)).pool.length = 1
  ∧ (runRace "k" "/w" "u" (fun _ => true) 0 [0, 0, 1, 1]
        (initRace 2)).factoryCalls = 1 := by
  refine ⟨rfl, rfl, rfl, rfl⟩

/-- C5 counterexample to the claim as stated: `store_session` called with
the explicitly passed display name `""` stores the default
`"Session {session_id[:8]}"` instead (the source's
`session_name or f"Session {session_id[:8]}"` treats the empty string as
falsy), so `get_session` does not return the displayName that was
passed. -/
theorem store_displayname_not_roundtripped :
    ((get_session (store_session .absent false false "k" "u" "/w" (some "")
          none 10).2 false "k").map (fun md => md.session_name))
      = some "Session k"
  ∧ ("Session k" : String) ≠ "" := by
  refine ⟨?_, by decide⟩
  rw [store_session_ok]
  simp [get_session, readStorage, dataOfFile, findMeta_setMeta_self,
    buildMetadata]
  decide
